import Mathlib

/-!
Verification development for the planetary hour watch face
(src/watch-faces/complication/planetary_hour_face.c).

Timestamps are modelled as seconds since the unix epoch, held in `ℕ` with explicit
wrap-around modulo 2^32 where the C code performs `uint32_t` arithmetic
(the watch utility functions `watch_utility_date_time_to_unix_time` /
`watch_utility_date_time_from_unix_time` convert losslessly between calendar
fields and such timestamps at offset zero; they are library code outside this
module, so the embedding works directly at the timestamp level).
Floating point `double` values carrying decimal hours and hour durations are
modelled as exact rationals, matching the design description of the division as
real-valued.
-/

/-- 2^32, the modulus of the `uint32_t` timestamp arithmetic in the face. -/
def U32 : ℕ := 4294967296

/-- Wrapping 32-bit addition, `(uint32_t)(a + b)`. -/
def u32add (a b : ℕ) : ℕ := (a + b) % U32

/-- Wrapping 32-bit subtraction, `(uint32_t)(a - b)`. -/
def u32sub (a b : ℕ) : ℕ := (a + (U32 - b % U32)) % U32

/-- `u32add` is plain addition when the sum does not overflow. -/
lemma u32add_eq_add (a b : ℕ) (h : a + b < U32) : u32add a b = a + b := by
  unfold u32add
  exact Nat.mod_eq_of_lt h

/-- `u32sub` is plain (truncated) subtraction when no borrow occurs. -/
lemma u32sub_eq_sub (a b : ℕ) (hb : b ≤ a) (ha : a < U32) : u32sub a b = a - b := by
  unfold u32sub U32 at *
  omega

/-- Entry of the static planet table: display name and two-letter abbreviation
(`planet_names_t` in planetary_hour_face.h, shape visible from its use). -/
structure planet_names_t where
  name : String
  abbreviation : String
deriving DecidableEq

/-- The static table `week_days_to_chaldean_order` (lines 50-58): maps the
day-of-week index produced by the Zeller style formula (0 = Saturday reference,
1 = Monday per the comments: index order Sunday..Saturday starting at the
formula value for a Sunday) to the Chaldean position of that day's ruler. -/
def week_days_to_chaldean_order (dow : ℕ) : ℕ :=
  match dow with
  | 0 => 3
  | 1 => 6
  | 2 => 2
  | 3 => 5
  | 4 => 1
  | 5 => 4
  | _ => 0

/-- The static table `planet_names` (lines 61-68), in fixed Chaldean order. -/
def planet_names : List planet_names_t :=
  [⟨"Satur", "SA"⟩, ⟨"Jupit", "JU"⟩, ⟨"Mars ", "MA"⟩, ⟨"Sun  ", "SU"⟩,
   ⟨"Venus", "VE"⟩, ⟨"Mercu", "ME"⟩, ⟨"Moon ", "MO"⟩]

/-- A calendar date. `year` is the full Gregorian year, i.e. the packed RTC
field `unit.year` plus `WATCH_RTC_REFERENCE_YEAR` (2020); the RTC field is six
bits wide, so the representable years are 2020..2083. -/
structure Date where
  year : ℕ
  month : ℕ
  day : ℕ
deriving DecidableEq

/-- The Zeller style congruence sum computed in
`planetary_ruler_from_base_and_time` (lines 136-147), including the
January/February as months 13/14 of the previous year adjustment. -/
def zellerSum (dt : Date) : ℕ :=
  if dt.month < 3 then
    dt.day + 2 * (dt.month + 12) + 3 * (dt.month + 12 + 1) / 5 + (dt.year - 1) +
      (dt.year - 1) / 4 - (dt.year - 1) / 100 + (dt.year - 1) / 400 + 1
  else
    dt.day + 2 * dt.month + 3 * (dt.month + 1) / 5 + dt.year +
      dt.year / 4 - dt.year / 100 + dt.year / 400 + 1

/-- `day_of_week` as computed at line 147. -/
def day_of_week (dt : Date) : ℕ := zellerSum dt % 7

/-- The Chaldean index of the hour ruler: `(ruler_of_day_index + time_since_sunrise) % 7`
(lines 150-153). -/
def planetary_ruler_index (dt : Date) (time_since_sunrise : ℕ) : ℕ :=
  (week_days_to_chaldean_order (day_of_week dt) + time_since_sunrise) % 7

/-- `planetary_ruler_from_base_and_time` (lines 133-157): the table entry of the
hour ruler for the given base day and chaldean offset. -/
def planetary_ruler_from_base_and_time (dt : Date) (time_since_sunrise : ℕ) :
    planet_names_t :=
  planet_names.getD (planetary_ruler_index dt time_since_sunrise) ⟨"", ""⟩

/-- Gregorian leap year rule, used to state what a consecutive calendar day is. -/
def isLeapYear (y : ℕ) : Bool :=
  y % 4 == 0 && (y % 100 != 0 || y % 400 == 0)

/-- Number of days of a Gregorian month. -/
def monthLength (y m : ℕ) : ℕ :=
  if m = 2 then (if isLeapYear y then 29 else 28)
  else if m = 4 ∨ m = 6 ∨ m = 9 ∨ m = 11 then 30
  else 31

/-- The next calendar day. -/
def nextDate (dt : Date) : Date :=
  if dt.day < monthLength dt.year dt.month then ⟨dt.year, dt.month, dt.day + 1⟩
  else if dt.month < 12 then ⟨dt.year, dt.month + 1, 1⟩
  else ⟨dt.year + 1, 1, 1⟩

/-- A well formed date within the range representable by the watch RTC. -/
def ValidDate (dt : Date) : Prop :=
  2020 ≤ dt.year ∧ dt.year ≤ 2083 ∧ 1 ≤ dt.month ∧ dt.month ≤ 12 ∧
    1 ≤ dt.day ∧ dt.day ≤ monthLength dt.year dt.month

instance (dt : Date) : Decidable (ValidDate dt) := by
  unfold ValidDate
  infer_instance

/-- The start/end timestamps the face computes for subdivision `index` of the
period `[ps, pe)`: `ps + (uint32_t)(index * hour_duration)` and
`ps + (uint32_t)((index + 1) * hour_duration)` with
`hour_duration = (pe - ps) / 12.0` (lines 120, 126-127). The `double`
arithmetic is modelled as exact rational arithmetic and the `uint32_t` cast of
a nonnegative value as floor followed by reduction mod 2^32. -/
def sub_hour_bounds (ps pe : ℕ) (index : ℕ) : ℕ × ℕ :=
  let hour_duration : ℚ := ((u32sub pe ps : ℕ) : ℚ) / 12
  (u32add ps (Int.toNat ⌊(index : ℚ) * hour_duration⌋ % U32),
   u32add ps (Int.toNat ⌊((index : ℚ) + 1) * hour_duration⌋ % U32))

/-- `_find_planetary_hour_in_period` (lines 110-130): divides `[ps, pe)` into 12
equal planetary hours, returning which subdivision holds `tt` (the floor of
`(tt - ps) / hour_duration`, clamped into [0, 11]) together with the start and
end of that subdivision. -/
def find_planetary_hour_in_period (ps pe tt : ℕ) : ℕ × ℕ × ℕ :=
  let hour_duration : ℚ := ((u32sub pe ps : ℕ) : ℚ) / 12
  let index0 : ℤ := ⌊((u32sub tt ps : ℕ) : ℚ) / hour_duration⌋
  let index1 : ℤ := if index0 < 0 then 0 else index0
  let index : ℤ := if 11 < index1 then 11 else index1
  (index.toNat, sub_hour_bounds ps pe index.toNat)

/-- `_local_decimal_hours_to_dt` (lines 160-204): converts decimal local hours
on a given day (a midnight timestamp) to the resulting (day timestamp, hour,
minute) triple, with the single day rollover for an hour outside [0, 24), the
half-up rounding of minutes and the carry of a rounded minute of 60. The debug
printing of the C function has no effect and is not modelled. -/
def local_decimal_hours_to_dt (day_local : ℕ) (local_hours_dec : ℚ) :
    ℕ × ℕ × ℕ :=
  let hour : ℤ := ⌊local_hours_dec⌋
  let fractional_hour : ℚ := local_hours_dec - (hour : ℚ)
  let hour2 : ℤ :=
    if hour < 0 then hour + 24 else if 24 ≤ hour then hour - 24 else hour
  let day2 : ℕ :=
    if hour < 0 then u32sub day_local 86400
    else if 24 ≤ hour then u32add day_local 86400
    else day_local
  let minutes : ℚ := 60 * fractional_hour
  let seconds : ℚ := 60 * (minutes - (⌊minutes⌋ : ℚ))
  let minute : ℤ := if seconds < 30 then ⌊minutes⌋ else ⌈minutes⌉
  if minute = 60 then
    if (hour2 + 1) % 24 = 0 then (u32add day2 86400, 0, 0)
    else (day2, ((hour2 + 1) % 24).toNat, 0)
  else (day2, hour2.toNat, minute.toNat)

/-- `_midnight_of` (lines 72-76): zeroing the hour, minute and second fields of
a local date-time; at the timestamp level this is rounding down to the previous
multiple of 86400 (the unix epoch is midnight aligned and unix days are exactly
86400 seconds). -/
def midnight_of (t : ℕ) : ℕ := t - t % 86400

/-- `_add_days` (lines 77-80): `unix(day) + 86400u * (uint32_t)|d| * (uint32_t)(d >= 0 ? 1 : -1)`,
all in wrapping 32-bit arithmetic; `(uint32_t)(-1)` is 2^32 - 1. -/
def add_days (day_midnight : ℕ) (d : ℤ) : ℕ :=
  u32add day_midnight
    (86400 * d.natAbs % U32 * (if 0 ≤ d then 1 else U32 - 1) % U32)

/-- `_planetary_hour_set_expiration` (lines 101-105): the stored expiration is
the given sub hour end plus 60 seconds. -/
def planetary_hour_set_expiration (next_hours_offset : ℕ) : ℕ :=
  u32add next_hours_offset 60

/-- The data computed by one successful run of `_planetary_hour_face_update`
(lines 456-499): the selected period, the night flag, the anchor (base) day
used for the ruler, the sub hour index and bounds, the chaldean offset
`hour_index + (is_night ? 12 : 0)` and the stored expiration. The ruler entry
itself is `planetary_ruler_from_base_and_time` applied to the calendar date of
`base_day` (the conversion between timestamps and calendar fields is watch
utility library code, modelled separately by the `Date` functions above). -/
structure planetary_hour_result_t where
  period_start : ℕ
  period_end : ℕ
  is_night : Bool
  base_day : ℕ
  hour_index : ℕ
  hour_start : ℕ
  hour_end : ℕ
  chaldean_offset : ℕ
  expires : ℕ
deriving DecidableEq

/-- Packaging of lines 488-499: divide the selected period, derive the
chaldean offset and stamp the expiration. -/
def mk_planetary_result (ps pe : ℕ) (night : Bool) (base : ℕ) (tt : ℕ) :
    planetary_hour_result_t :=
  let f := find_planetary_hour_in_period ps pe tt
  ⟨ps, pe, night, base, f.1, f.2.1, f.2.2,
    f.1 + (if night then 12 else 0), planetary_hour_set_expiration f.2.2⟩

/-- The computational core of `_planetary_hour_face_update` (lines 446-499),
starting after the location and current time have been read. `sun` abstracts
`_compute_local_sun_times` for a given day midnight: `none` models a polar
anomaly (the function returning false). For the target day the C code checks
the status and bails out to the "None" display, modelled as `none` here; for
the adjacent days (lines 466 and 475) the status is IGNORED and the
sunrise/sunset variables are read regardless, so a failed adjacent-day call
leaves whatever was in the uninitialised variables: that junk value is the
explicit `junk` parameter. -/
def planetary_hour_face_update (sun : ℕ → Option (ℕ × ℕ)) (junk : ℕ × ℕ)
    (target_time : ℕ) : Option planetary_hour_result_t :=
  let target0 := midnight_of target_time
  match sun target0 with
  | none => none
  | some (sr_target_day, ss_target_day) =>
    let tt := target_time
    if tt < sr_target_day then
      let target_neg1 := u32sub target0 86400
      let prev := (sun target_neg1).getD junk
      some (mk_planetary_result prev.2 sr_target_day true target_neg1 tt)
    else if ss_target_day ≤ tt then
      let target1 := u32add target0 86400
      let nxt := (sun target1).getD junk
      some (mk_planetary_result ss_target_day nxt.1 true target0 tt)
    else
      some (mk_planetary_result sr_target_day ss_target_day false target0 tt)

/-- A concrete sun oracle for which the target day (day 1) has ordinary sun
times (06:00 and 18:00 local) but every other day, in particular day 0, has a
polar anomaly. -/
def sun_polar_prev_day : ℕ → Option (ℕ × ℕ) :=
  fun d => if d = 86400 then some (108000, 151200) else none

/-- A concrete sun oracle defined on days 0, 1 and 2 with ordinary 06:00/18:00
sun times each day. -/
def sun_equatorial : ℕ → Option (ℕ × ℕ) :=
  fun d =>
    if d = 0 then some (21600, 64800)
    else if d = 86400 then some (108000, 151200)
    else if d = 172800 then some (194400, 237600)
    else none

/-- Modelled from the spec: the digit field record `lat_lon_settings_t` is
declared in planetary_hour_face.h, which is not among the sources; the spec's
DigitFieldValue lists the decimal digit fields sign, hundreds, tens, ones,
tenths, hundredths, with the sign field a toggle. -/
structure lat_lon_settings_t where
  sign : Bool
  hundreds : ℕ
  tens : ℕ
  ones : ℕ
  tenths : ℕ
  hundredths : ℕ
deriving DecidableEq

/-- Modelled from the spec: `_latlon_from_struct` (declared outside these
sources) reconstructs the signed hundredths-of-a-degree value
`(sign ? -1 : 1) * (hundreds*10000 + tens*1000 + ones*100 + tenths*10 + hundredths)`. -/
def latlon_from_struct (s : lat_lon_settings_t) : ℤ :=
  (if s.sign then -1 else 1) *
    (s.hundreds * 10000 + s.tens * 1000 + s.ones * 100 + s.tenths * 10 +
      s.hundredths)

/-- `_planetary_hour_face_struct_from_latlon` (lines 82-99). -/
def planetary_hour_face_struct_from_latlon (val : ℤ) : lat_lon_settings_t :=
  let a := val.natAbs
  ⟨val < 0, a / 10000 % 10, a / 1000 % 10, a / 100 % 10, a / 10 % 10, a % 10⟩

/-- The location editor fields of `planetary_hour_state_t.location_state`. -/
structure location_edit_state_t where
  page : ℕ
  active_digit : ℕ
  working_latitude : lat_lon_settings_t
  working_longitude : lat_lon_settings_t
  location_changed : Bool
deriving DecidableEq

/-- `_planetary_hour_face_advance_digit` (lines 237-404). `custom_lcd` is
`watch_get_lcd_type() == WATCH_LCD_TYPE_CUSTOM` (the 5-digit layout); the else
branch is the 6-digit layout. `abs(_latlon_from_struct(...)) > bound` is
modelled as `bound < (latlon_from_struct ...).natAbs`. -/
def planetary_hour_face_advance_digit (custom_lcd : Bool)
    (st : location_edit_state_t) : location_edit_state_t :=
  let st1 := { st with location_changed := true }
  if custom_lcd then
    match st1.page, st1.active_digit with
    | 1, 0 =>
      let lat1 := { st1.working_latitude with
        tens := (st1.working_latitude.tens + 1) % 10 }
      let lat2 := if 9000 < (latlon_from_struct lat1).natAbs then
          { lat1 with ones := 0, tenths := 0, hundredths := 0 } else lat1
      { st1 with working_latitude := lat2 }
    | 1, 1 =>
      let lat1 := { st1.working_latitude with
        ones := (st1.working_latitude.ones + 1) % 10 }
      let lat2 := if 9000 < (latlon_from_struct lat1).natAbs then
          { lat1 with ones := 0 } else lat1
      { st1 with working_latitude := lat2 }
    | 1, 2 =>
      let lat1 := { st1.working_latitude with
        tenths := (st1.working_latitude.tenths + 1) % 10 }
      let lat2 := if 9000 < (latlon_from_struct lat1).natAbs then
          { lat1 with tenths := 0 } else lat1
      { st1 with working_latitude := lat2 }
    | 1, 3 =>
      let lat1 := { st1.working_latitude with
        hundredths := (st1.working_latitude.hundredths + 1) % 10 }
      let lat2 := if 9000 < (latlon_from_struct lat1).natAbs then
          { lat1 with hundredths := 0 } else lat1
      { st1 with working_latitude := lat2 }
    | 1, 4 =>
      { st1 with working_latitude :=
        { st1.working_latitude with sign := !st1.working_latitude.sign } }
    | 2, 0 =>
      let lon1 := { st1.working_longitude with
        tens := st1.working_longitude.tens + 1 }
      let lon2 := if 10 ≤ lon1.tens then
          { lon1 with tens := 0, hundreds := lon1.hundreds + 1 } else lon1
      let lon3 := if 18000 < (latlon_from_struct lon2).natAbs then
          { lon2 with
            hundreds := 0
            tens := 0
            ones := 0
            tenths := 0
            hundredths := 0 }
        else lon2
      { st1 with working_longitude := lon3 }
    | 2, 1 =>
      let lon1 := { st1.working_longitude with
        ones := (st1.working_longitude.ones + 1) % 10 }
      let lon2 := if 18000 < (latlon_from_struct lon1).natAbs then
          { lon1 with ones := 0 } else lon1
      { st1 with working_longitude := lon2 }
    | 2, 2 =>
      let lon1 := { st1.working_longitude with
        tenths := (st1.working_longitude.tenths + 1) % 10 }
      let lon2 := if 18000 < (latlon_from_struct lon1).natAbs then
          { lon1 with tenths := 0 } else lon1
      { st1 with working_longitude := lon2 }
    | 2, 3 =>
      let lon1 := { st1.working_longitude with
        hundredths := (st1.working_longitude.hundredths + 1) % 10 }
      let lon2 := if 18000 < (latlon_from_struct lon1).natAbs then
          { lon1 with hundredths := 0 } else lon1
      { st1 with working_longitude := lon2 }
    | 2, 4 =>
      { st1 with working_longitude :=
        { st1.working_longitude with sign := !st1.working_longitude.sign } }
    | _, _ => st1
  else
    match st1.page, st1.active_digit with
    | 1, 0 =>
      { st1 with working_latitude :=
        { st1.working_latitude with sign := !st1.working_latitude.sign } }
    | 1, 1 => st1
    | 1, 2 =>
      let lat1 := { st1.working_latitude with
        tens := (st1.working_latitude.tens + 1) % 10 }
      let lat2 := if 9000 < (latlon_from_struct lat1).natAbs then
          { lat1 with ones := 0, tenths := 0, hundredths := 0 } else lat1
      { st1 with working_latitude := lat2 }
    | 1, 3 =>
      let lat1 := { st1.working_latitude with
        ones := (st1.working_latitude.ones + 1) % 10 }
      let lat2 := if 9000 < (latlon_from_struct lat1).natAbs then
          { lat1 with ones := 0 } else lat1
      { st1 with working_latitude := lat2 }
    | 1, 4 =>
      let lat1 := { st1.working_latitude with
        tenths := (st1.working_latitude.tenths + 1) % 10 }
      let lat2 := if 9000 < (latlon_from_struct lat1).natAbs then
          { lat1 with tenths := 0 } else lat1
      { st1 with working_latitude := lat2 }
    | 1, 5 =>
      let lat1 := { st1.working_latitude with
        hundredths := (st1.working_latitude.hundredths + 1) % 10 }
      let lat2 := if 9000 < (latlon_from_struct lat1).natAbs then
          { lat1 with hundredths := 0 } else lat1
      { st1 with working_latitude := lat2 }
    | 2, 0 =>
      { st1 with working_longitude :=
        { st1.working_longitude with sign := !st1.working_longitude.sign } }
    | 2, 1 =>
      let lon1 := { st1.working_longitude with
        hundreds := (st1.working_longitude.hundreds + 1) % 10 }
      let lon2 := if 18000 < (latlon_from_struct lon1).natAbs then
          { lon1 with tens := 8, ones := 0, tenths := 0, hundredths := 0 }
        else lon1
      { st1 with working_longitude := lon2 }
    | 2, 2 =>
      let lon1 := { st1.working_longitude with
        tens := (st1.working_longitude.tens + 1) % 10 }
      let lon2 := if 18000 < (latlon_from_struct lon1).natAbs then
          { lon1 with tens := 0 } else lon1
      { st1 with working_longitude := lon2 }
    | 2, 3 =>
      let lon1 := { st1.working_longitude with
        ones := (st1.working_longitude.ones + 1) % 10 }
      let lon2 := if 18000 < (latlon_from_struct lon1).natAbs then
          { lon1 with ones := 0 } else lon1
      { st1 with working_longitude := lon2 }
    | 2, 4 =>
      let lon1 := { st1.working_longitude with
        tenths := (st1.working_longitude.tenths + 1) % 10 }
      let lon2 := if 18000 < (latlon_from_struct lon1).natAbs then
          { lon1 with tenths := 0 } else lon1
      { st1 with working_longitude := lon2 }
    | 2, 5 =>
      let lon1 := { st1.working_longitude with
        hundredths := (st1.working_longitude.hundredths + 1) % 10 }
      let lon2 := if 18000 < (latlon_from_struct lon1).natAbs then
          { lon1 with hundredths := 0 } else lon1
      { st1 with working_longitude := lon2 }
    | _, _ => st1

/-- The face context `planetary_hour_state_t` (fields used by the loop; the
persisted location register lives in the filesystem, an external collaborator,
and is not part of this record). -/
structure planetary_hour_state_t where
  location_state : location_edit_state_t
  hour_offset : ℤ
  hour_offset_expires : ℕ
  longLatToUse : ℕ
deriving DecidableEq

/-- The EVENT_TICK / EVENT_LOW_ENERGY_UPDATE branch of
`planetary_hour_face_loop` (lines 579-597): on the display page (page 0) the
planetary hour is recomputed exactly when the current local time has reached or
passed the stored expiration; on the editing pages only the location settings
display is refreshed. Returns whether `_planetary_hour_face_update` is called.
The packed register comparison `date_time.reg >= hour_offset_expires.reg` is
order isomorphic to comparing the corresponding timestamps. -/
def planetary_hour_tick_recomputes (st : planetary_hour_state_t) (now : ℕ) :
    Bool :=
  if st.location_state.page = 0 then decide (st.hour_offset_expires ≤ now)
  else false

/-- The EVENT_ALARM_BUTTON_UP branch of `planetary_hour_face_loop`
(lines 623-634): on an editing page the active digit is advanced; on the
display page the hour offset is incremented and the planetary hour recomputed.
Returns the new state and whether `_planetary_hour_face_update` is called. -/
def planetary_hour_alarm_button_up (custom_lcd : Bool)
    (st : planetary_hour_state_t) : planetary_hour_state_t × Bool :=
  if st.location_state.page ≠ 0 then
    ({ st with location_state :=
        planetary_hour_face_advance_digit custom_lcd st.location_state },
      false)
  else
    ({ st with hour_offset := st.hour_offset + 1 }, true)

/-- The location cursor advance performed inside EVENT_LIGHT_BUTTON_UP on an
editing page (lines 657-678): move to the next digit, skipping the latitude
hundreds place in the 6-digit layout, and past the last digit reset the cursor
and advance the page modulo 3 (committing the staged values to the persisted
register, an external effect not modelled here). -/
def location_cursor_advance (custom_lcd : Bool) (ls : location_edit_state_t) :
    location_edit_state_t :=
  if custom_lcd then
    let d := ls.active_digit + 1
    if 4 < d then { ls with active_digit := 0, page := (ls.page + 1) % 3 }
    else { ls with active_digit := d }
  else
    let d1 := ls.active_digit + 1
    let d2 := if ls.page = 1 ∧ d1 = 1 then d1 + 1 else d1
    if 5 < d2 then { ls with active_digit := 0, page := (ls.page + 1) % 3 }
    else { ls with active_digit := d2 }

/-- The EVENT_LIGHT_BUTTON_UP branch of `planetary_hour_face_loop`
(lines 648-687): on the display page with several presets the preset cycles and
the planetary hour is recomputed; otherwise, on an editing page the cursor
advances, and afterwards (also when the cursor advance just committed the last
page) if the page is 0 the hour offset is decremented and the planetary hour
recomputed. Returns the new state and whether `_planetary_hour_face_update` is
called. -/
def planetary_hour_light_button_up (custom_lcd : Bool)
    (st : planetary_hour_state_t) (location_count : ℕ) :
    planetary_hour_state_t × Bool :=
  if st.location_state.page = 0 ∧ 1 < location_count then
    ({ st with longLatToUse := (st.longLatToUse + 1) % location_count }, true)
  else
    let st1 :=
      if st.location_state.page ≠ 0 then
        { st with location_state :=
            location_cursor_advance custom_lcd st.location_state }
      else st
    if st1.location_state.page = 0 then
      ({ st1 with hour_offset := st1.hour_offset - 1 }, true)
    else (st1, false)

/-- Within a month the Zeller sum grows by exactly one per day. -/
lemma zellerSum_day_succ (y m d : ℕ) :
    zellerSum ⟨y, m, d + 1⟩ = zellerSum ⟨y, m, d⟩ + 1 := by
  by_cases hm : m < 3 <;> simp only [zellerSum, hm, if_true, if_false] <;> omega

/-- Across a month boundary the day of week still advances by one, checked for
every month of every representable year. -/
lemma zeller_dow_month_end :
    ∀ i < 64, ∀ m < 13, 1 ≤ m →
      day_of_week (nextDate ⟨2020 + i, m, monthLength (2020 + i) m⟩) =
        (day_of_week ⟨2020 + i, m, monthLength (2020 + i) m⟩ + 1) % 7 := by
  decide

/-- The Zeller style day of week advances by one from each valid calendar day
to the next. -/
lemma day_of_week_nextDate (dt : Date) (h : ValidDate dt) :
    day_of_week (nextDate dt) = (day_of_week dt + 1) % 7 := by
  obtain ⟨h1, h2, h3, h4, h5, h6⟩ := h
  by_cases hd : dt.day < monthLength dt.year dt.month
  · have hn : nextDate dt = ⟨dt.year, dt.month, dt.day + 1⟩ := by
      unfold nextDate
      rw [if_pos hd]
    rw [hn]
    unfold day_of_week
    rw [zellerSum_day_succ dt.year dt.month dt.day]
    have heta : (⟨dt.year, dt.month, dt.day⟩ : Date) = dt := rfl
    rw [heta]
    omega
  · have hde : dt.day = monthLength dt.year dt.month := by omega
    have h7 := zeller_dow_month_end (dt.year - 2020) (by omega) dt.month (by omega) h3
    have hy : 2020 + (dt.year - 2020) = dt.year := by omega
    rw [hy] at h7
    have hdt : dt = ⟨dt.year, dt.month, monthLength dt.year dt.month⟩ := by
      rw [← hde]
    rw [hdt]
    exact h7

/-- Every entry of the weekday to Chaldean table is a valid Chaldean position. -/
lemma week_days_to_chaldean_order_lt (d : ℕ) : week_days_to_chaldean_order d < 7 := by
  unfold week_days_to_chaldean_order
  split <;> omega

/-- Stepping to the next weekday shifts the day ruler three positions forward
in the Chaldean cycle (24 hours = 3 * 7 + 3). -/
lemma chaldean_table_shift :
    ∀ d < 7, week_days_to_chaldean_order ((d + 1) % 7) =
      (week_days_to_chaldean_order d + 3) % 7 := by
  decide

/-- Claim C2 (amended): for every representable anchor day and chaldean offsets
in [0, 23], the hour ruler index has period exactly seven in the offset (two
offsets give the same ruler exactly when they agree mod 7), every one of the
seven planets occurs among the offsets, and stepping to the next calendar day
shifts the ruler by exactly a fixed THREE step advance in the Chaldean cycle
Saturn, Jupiter, Mars, Sun, Venus, Mercury, Moon. -/
theorem C2_ruler_cycle_and_day_shift (dt : Date) (h : ValidDate dt) (o o' : ℕ)
    (ho : o ≤ 23) (ho' : o' ≤ 23) :
    (planetary_ruler_index dt o = planetary_ruler_index dt o' ↔ o % 7 = o' % 7) ∧
    (∀ p, p < 7 → ∃ k, k ≤ 23 ∧ planetary_ruler_index dt k = p) ∧
    planetary_ruler_index (nextDate dt) o = (planetary_ruler_index dt o + 3) % 7 := by
  have hc : week_days_to_chaldean_order (day_of_week dt) < 7 :=
    week_days_to_chaldean_order_lt _
  refine ⟨?_, ?_, ?_⟩
  · unfold planetary_ruler_index
    omega
  · intro p hp
    refine ⟨(p + 7 - week_days_to_chaldean_order (day_of_week dt) % 7) % 7, by omega, ?_⟩
    unfold planetary_ruler_index
    omega
  · unfold planetary_ruler_index
    rw [day_of_week_nextDate dt h]
    have hd7 : day_of_week dt < 7 := Nat.mod_lt _ (by norm_num)
    rw [chaldean_table_shift (day_of_week dt) hd7]
    omega

/-- Witness for C2 at the concrete anchor day 2024-01-01 with offsets 0 and 7. -/
theorem C2_ruler_cycle_and_day_shift_witness :
    (planetary_ruler_index ⟨2024, 1, 1⟩ 0 = planetary_ruler_index ⟨2024, 1, 1⟩ 7 ↔
      0 % 7 = 7 % 7) ∧
    (∀ p, p < 7 → ∃ k, k ≤ 23 ∧ planetary_ruler_index ⟨2024, 1, 1⟩ k = p) ∧
    planetary_ruler_index (nextDate ⟨2024, 1, 1⟩) 0 =
      (planetary_ruler_index ⟨2024, 1, 1⟩ 0 + 3) % 7 :=
  C2_ruler_cycle_and_day_shift ⟨2024, 1, 1⟩ (by decide) 0 7 (by decide) (by decide)

/-- Counterexample to C2 as stated: the rulers of the consecutive anchor days
2024-01-01 and 2024-01-02 do NOT differ by a five step shift in the Chaldean
cycle (Moon at position 6 would have to be followed by position (6+5)%7 = 4,
Venus, but the Tuesday ruler is Mars at position 2). -/
theorem C2_five_step_shift_counterexample :
    ¬ planetary_ruler_index (nextDate ⟨2024, 1, 1⟩) 0 =
      (planetary_ruler_index ⟨2024, 1, 1⟩ 0 + 5) % 7 := by
  decide

/-- Claim C7: for anchor day 2024-01-01 (a Monday) the Zeller derivation plus
the weekday-to-Chaldean table give the Moon as day ruler, so chaldean offset 0
resolves to the Moon; and in general the ruler of an offset is the planet
`(chaldean_position + offset) % 7` in the fixed cycle held by `planet_names`. -/
theorem C7_monday_moon_and_offset_formula :
    planetary_ruler_from_base_and_time ⟨2024, 1, 1⟩ 0 = ⟨"Moon ", "MO"⟩ ∧
    ∀ dt t, planetary_ruler_from_base_and_time dt t =
      planet_names.getD ((week_days_to_chaldean_order (day_of_week dt) + t) % 7)
        ⟨"", ""⟩ := by
  exact ⟨by decide, fun dt t => rfl⟩

/-- Claim C3: within a period `[ps, pe)` the divider returns exactly the index
`floor((target - start) / (duration / 12))` (the [0, 11] clamp is the identity
there), the returned bounds are those of that index, and the twelve sub hours
partition the period: sub hour 0 starts at the period start, each sub hour ends
where the next begins, and sub hour 11 ends at the period end. -/
theorem C3_twelve_subhour_partition (ps pe tt : ℕ)
    (hlt : ps < pe) (h1 : ps ≤ tt) (h2 : tt < pe) (hpe : pe < U32) :
    (find_planetary_hour_in_period ps pe tt).1 =
      Int.toNat ⌊((tt - ps : ℕ) : ℚ) / (((pe - ps : ℕ) : ℚ) / 12)⌋ ∧
    (find_planetary_hour_in_period ps pe tt).1 ≤ 11 ∧
    (find_planetary_hour_in_period ps pe tt).2 =
      sub_hour_bounds ps pe (find_planetary_hour_in_period ps pe tt).1 ∧
    (sub_hour_bounds ps pe 0).1 = ps ∧
    (∀ i, i < 11 → (sub_hour_bounds ps pe i).2 = (sub_hour_bounds ps pe (i + 1)).1) ∧
    (sub_hour_bounds ps pe 11).2 = pe := by
  have hps : ps < U32 := lt_trans hlt hpe
  have htw : tt < U32 := lt_trans h2 hpe
  have hse : u32sub pe ps = pe - ps := u32sub_eq_sub pe ps (le_of_lt hlt) hpe
  have hst : u32sub tt ps = tt - ps := u32sub_eq_sub tt ps h1 htw
  have hDpos : (0 : ℚ) < ((pe - ps : ℕ) : ℚ) := by
    have : 0 < pe - ps := by omega
    exact_mod_cast this
  have hdurpos : (0 : ℚ) < ((pe - ps : ℕ) : ℚ) / 12 := by positivity
  have hxlt : ((tt - ps : ℕ) : ℚ) < ((pe - ps : ℕ) : ℚ) := by
    have : tt - ps < pe - ps := by omega
    exact_mod_cast this
  have hxnn : (0 : ℚ) ≤ ((tt - ps : ℕ) : ℚ) := Nat.cast_nonneg _
  -- the unclamped index is in [0, 11]
  have h12mul : (12 : ℚ) * (((pe - ps : ℕ) : ℚ) / 12) = ((pe - ps : ℕ) : ℚ) := by
    rw [mul_comm]
    exact div_mul_cancel₀ _ (by norm_num)
  have hidx0 : (0 : ℤ) ≤ ⌊((tt - ps : ℕ) : ℚ) / (((pe - ps : ℕ) : ℚ) / 12)⌋ :=
    Int.floor_nonneg.mpr (div_nonneg hxnn (le_of_lt hdurpos))
  have hidx12 : ⌊((tt - ps : ℕ) : ℚ) / (((pe - ps : ℕ) : ℚ) / 12)⌋ < 12 := by
    rw [Int.floor_lt]
    rw [div_lt_iff₀ hdurpos]
    push_cast
    rw [h12mul]
    exact hxlt
  have hn1 : ¬ (⌊((tt - ps : ℕ) : ℚ) / (((pe - ps : ℕ) : ℚ) / 12)⌋ < 0) := by omega
  have hn2 : ¬ ((11 : ℤ) < ⌊((tt - ps : ℕ) : ℚ) / (((pe - ps : ℕ) : ℚ) / 12)⌋) := by
    omega
  have hfind : find_planetary_hour_in_period ps pe tt =
      (Int.toNat ⌊((tt - ps : ℕ) : ℚ) / (((pe - ps : ℕ) : ℚ) / 12)⌋,
        sub_hour_bounds ps pe
          (Int.toNat ⌊((tt - ps : ℕ) : ℚ) / (((pe - ps : ℕ) : ℚ) / 12)⌋)) := by
    simp only [find_planetary_hour_in_period]
    rw [hse, hst, if_neg hn1, if_neg hn2]
  refine ⟨by rw [hfind], by rw [hfind]; omega, by rw [hfind], ?_, ?_, ?_⟩
  · simp only [sub_hour_bounds]
    norm_num
    simp only [u32add]
    unfold U32 at hps ⊢
    omega
  · intro i hi
    simp only [sub_hour_bounds]
    push_cast
    rfl
  · simp only [sub_hour_bounds]
    rw [hse]
    have h12 : (((11 : ℕ) : ℚ) + 1) * (((pe - ps : ℕ) : ℚ) / 12) =
        ((pe - ps : ℕ) : ℚ) := by
      rw [← h12mul]
      norm_num
    rw [h12, Int.floor_natCast, Int.toNat_natCast]
    have hmod : (pe - ps) % U32 = pe - ps := by
      apply Nat.mod_eq_of_lt
      unfold U32 at hpe ⊢
      omega
    rw [hmod]
    simp only [u32add]
    unfold U32 at hpe ⊢
    omega

/-- The minute rule of `_local_decimal_hours_to_dt` (lines 183-189):
`seconds = 60 * fmod(minutes, 1)` and the minute is `floor(minutes)` when
`seconds < 30` and `ceil(minutes)` otherwise; for nonnegative `minutes` this is
rounding to the nearest minute with ties at exactly 30 seconds rounded up. -/
lemma round_half_up_minute (m : ℚ) :
    (if 60 * (m - (⌊m⌋ : ℚ)) < 30 then ⌊m⌋ else ⌈m⌉) = ⌊m + 1 / 2⌋ := by
  have hfl : (⌊m⌋ : ℚ) ≤ m := Int.floor_le m
  have hfu : m < (⌊m⌋ : ℚ) + 1 := Int.lt_floor_add_one m
  by_cases hf : m - (⌊m⌋ : ℚ) < 1 / 2
  · rw [if_pos (by linarith)]
    symm
    rw [Int.floor_eq_iff]
    constructor
    · linarith
    · linarith
  · rw [if_neg (by linarith)]
    have hceil : ⌈m⌉ = ⌊m⌋ + 1 := by
      rw [Int.ceil_eq_iff]
      constructor
      · push_cast
        linarith
      · push_cast
        linarith
    have hfloor : ⌊m + 1 / 2⌋ = ⌊m⌋ + 1 := by
      rw [Int.floor_eq_iff]
      constructor
      · push_cast
        linarith
      · push_cast
        linarith
    rw [hceil, hfloor]

/-- Claim C6: for decimal hours within one day rollover of the target day, the
conversion produces an hour in [0, 24) and a minute in [0, 60), moves the day
only by whole days, and the resulting instant equals
day + 3600 * floor(dec) + 60 * (minutes of the fractional part rounded half
up); this single identity packages the hour = integer part rule, the day
rollover, the tie-at-30-seconds rounding and the minute-60 carry. -/
theorem C6_decimal_hours_to_dt (day_local : ℕ) (dec : ℚ)
    (h1 : (-24 : ℚ) ≤ dec) (h2 : dec < 48)
    (hd1 : 86400 ≤ day_local) (hd2 : day_local + 172800 < U32) :
    (local_decimal_hours_to_dt day_local dec).2.1 < 24 ∧
    (local_decimal_hours_to_dt day_local dec).2.2 < 60 ∧
    (local_decimal_hours_to_dt day_local dec).1 % 86400 = day_local % 86400 ∧
    ((local_decimal_hours_to_dt day_local dec).1 : ℤ) +
        3600 * ((local_decimal_hours_to_dt day_local dec).2.1 : ℤ) +
        60 * ((local_decimal_hours_to_dt day_local dec).2.2 : ℤ) =
      (day_local : ℤ) + 3600 * ⌊dec⌋ +
        60 * ⌊60 * (dec - (⌊dec⌋ : ℚ)) + 1 / 2⌋ := by
  have hU : day_local + 172800 < 4294967296 := hd2
  have hhl : (-24 : ℤ) ≤ ⌊dec⌋ := Int.le_floor.mpr (by exact_mod_cast h1)
  have hhu : ⌊dec⌋ < 48 := Int.floor_lt.mpr (by exact_mod_cast h2)
  have hfr0 : (0 : ℚ) ≤ dec - (⌊dec⌋ : ℚ) := by linarith [Int.floor_le dec]
  have hfr1 : dec - (⌊dec⌋ : ℚ) < 1 := by linarith [Int.lt_floor_add_one dec]
  have hM0 : (0 : ℤ) ≤ ⌊60 * (dec - (⌊dec⌋ : ℚ)) + 1 / 2⌋ :=
    Int.le_floor.mpr (by push_cast; linarith)
  have hM60 : ⌊60 * (dec - (⌊dec⌋ : ℚ)) + 1 / 2⌋ ≤ 60 := by
    have : ⌊60 * (dec - (⌊dec⌋ : ℚ)) + 1 / 2⌋ < 61 :=
      Int.floor_lt.mpr (by push_cast; linarith)
    omega
  have hUlt : day_local + 172800 < 4294967296 := by
    unfold U32 at hd2
    exact hd2
  have hsub : u32sub day_local 86400 = day_local - 86400 := by
    unfold u32sub U32
    omega
  have hadd : u32add day_local 86400 = day_local + 86400 := by
    unfold u32add U32
    omega
  have hadd2 : u32add (day_local - 86400) 86400 = day_local := by
    unfold u32add U32
    omega
  have hadd3 : u32add (u32add day_local 86400) 86400 = day_local + 172800 := by
    unfold u32add U32
    omega
  have hadd4 : u32add (day_local + 86400) 86400 = day_local + 172800 := by
    unfold u32add U32
    omega
  simp only [local_decimal_hours_to_dt]
  rw [round_half_up_minute (60 * (dec - (⌊dec⌋ : ℚ)))]
  split_ifs <;>
    dsimp only <;>
    simp only [hsub, hadd, hadd2, hadd3, hadd4, true_and, and_true] <;>
    omega

/-- Witness for C6 at day 86400 with 6.125 decimal hours (6:07:30, whose 30
second fraction rounds the minute up to 8). -/
theorem C6_decimal_hours_to_dt_witness :
    (local_decimal_hours_to_dt 86400 (49 / 8)).2.1 < 24 ∧
    (local_decimal_hours_to_dt 86400 (49 / 8)).2.2 < 60 ∧
    (local_decimal_hours_to_dt 86400 (49 / 8)).1 % 86400 = 86400 % 86400 ∧
    ((local_decimal_hours_to_dt 86400 (49 / 8)).1 : ℤ) +
        3600 * ((local_decimal_hours_to_dt 86400 (49 / 8)).2.1 : ℤ) +
        60 * ((local_decimal_hours_to_dt 86400 (49 / 8)).2.2 : ℤ) =
      (86400 : ℤ) + 3600 * ⌊(49 / 8 : ℚ)⌋ +
        60 * ⌊60 * ((49 / 8 : ℚ) - (⌊(49 / 8 : ℚ)⌋ : ℚ)) + 1 / 2⌋ :=
  C6_decimal_hours_to_dt 86400 (49 / 8) (by norm_num) (by norm_num)
    (by norm_num) (by norm_num [U32])

/-- Witness for C3 at the concrete period `[1000, 1360)` with target 1100. -/
theorem C3_twelve_subhour_partition_witness :
    (find_planetary_hour_in_period 1000 1360 1100).1 =
      Int.toNat ⌊((1100 - 1000 : ℕ) : ℚ) / (((1360 - 1000 : ℕ) : ℚ) / 12)⌋ ∧
    (find_planetary_hour_in_period 1000 1360 1100).1 ≤ 11 ∧
    (find_planetary_hour_in_period 1000 1360 1100).2 =
      sub_hour_bounds 1000 1360 (find_planetary_hour_in_period 1000 1360 1100).1 ∧
    (sub_hour_bounds 1000 1360 0).1 = 1000 ∧
    (∀ i, i < 11 →
      (sub_hour_bounds 1000 1360 i).2 = (sub_hour_bounds 1000 1360 (i + 1)).1) ∧
    (sub_hour_bounds 1000 1360 11).2 = 1360 :=
  C3_twelve_subhour_partition 1000 1360 1100 (by norm_num) (by norm_num)
    (by norm_num) (by norm_num [U32])

/-- The magnitude of a reconstructed coordinate is the unsigned digit value. -/
lemma latlon_from_struct_natAbs (s : lat_lon_settings_t) :
    (latlon_from_struct s).natAbs =
      s.hundreds * 10000 + s.tens * 1000 + s.ones * 100 + s.tenths * 10 +
        s.hundredths := by
  unfold latlon_from_struct
  cases hs : s.sign <;> simp <;> omega

/-- Claim C1, evaluated at the failing input (code bug): with a sun oracle that
has ordinary sun times on the target day but a polar anomaly on the previous
day, a target instant before the target day's sunrise still yields a computed
result instead of the defined "no data" outcome, because the status of the
adjacent-day `_compute_local_sun_times` call is ignored and the period is built
from the uninitialised (junk) sunset. -/
theorem C1_adjacent_day_anomaly_ignored :
    sun_polar_prev_day (u32sub 86400 86400) = none ∧
    (90000 : ℕ) < 108000 ∧
    (planetary_hour_face_update sun_polar_prev_day (0, 0) 90000).isSome = true ∧
    (planetary_hour_face_update sun_polar_prev_day (0, 0) 90000).map
        (fun r => r.period_start) = some 0 := by
  refine ⟨?_, by norm_num, rfl, rfl⟩
  decide

/-- Claim C4: period selection is half open. A target exactly at the computed
sunset falls in the following night period [sunset, next sunrise) with the
anchor day still the target day; a target exactly at sunrise falls in the
daytime period [sunrise, sunset) with the target day as anchor; and a target
before sunrise falls in the previous night period [previous sunset, sunrise)
anchored on the previous day. -/
theorem C4_half_open_period_boundaries (sun : ℕ → Option (ℕ × ℕ))
    (junk : ℕ × ℕ) (d0 sr ss psr pss nsr nss : ℕ)
    (hd0 : sun d0 = some (sr, ss))
    (hprev : sun (u32sub d0 86400) = some (psr, pss))
    (hnext : sun (u32add d0 86400) = some (nsr, nss))
    (hrs : sr < ss) :
    (midnight_of ss = d0 → ∃ r,
      planetary_hour_face_update sun junk ss = some r ∧
      r.period_start = ss ∧ r.period_end = nsr ∧ r.is_night = true ∧
      r.base_day = d0) ∧
    (midnight_of sr = d0 → ∃ r,
      planetary_hour_face_update sun junk sr = some r ∧
      r.period_start = sr ∧ r.period_end = ss ∧ r.is_night = false ∧
      r.base_day = d0) ∧
    (∀ tt, midnight_of tt = d0 → tt < sr → ∃ r,
      planetary_hour_face_update sun junk tt = some r ∧
      r.period_start = pss ∧ r.period_end = sr ∧ r.is_night = true ∧
      r.base_day = u32sub d0 86400) := by
  refine ⟨?_, ?_, ?_⟩
  · intro hmid
    refine ⟨mk_planetary_result ss nsr true d0 ss, ?_, rfl, rfl, rfl, rfl⟩
    simp only [planetary_hour_face_update, hmid, hd0]
    rw [if_neg (by omega), if_pos (le_refl ss), hnext]
    rfl
  · intro hmid
    refine ⟨mk_planetary_result sr ss false d0 sr, ?_, rfl, rfl, rfl, rfl⟩
    simp only [planetary_hour_face_update, hmid, hd0]
    rw [if_neg (by omega), if_neg (by omega)]
  · intro tt hmid htt
    refine ⟨mk_planetary_result pss sr true (u32sub d0 86400) tt, ?_, rfl, rfl,
      rfl, rfl⟩
    simp only [planetary_hour_face_update, hmid, hd0]
    rw [if_pos htt, hprev]
    rfl

/-- Witness for C4 with the concrete three day equatorial oracle: target day 1
(midnight 86400), sunrise 108000, sunset 151200. -/
theorem C4_half_open_period_boundaries_witness :
    (midnight_of 151200 = 86400 → ∃ r,
      planetary_hour_face_update sun_equatorial (0, 0) 151200 = some r ∧
      r.period_start = 151200 ∧ r.period_end = 194400 ∧ r.is_night = true ∧
      r.base_day = 86400) ∧
    (midnight_of 108000 = 86400 → ∃ r,
      planetary_hour_face_update sun_equatorial (0, 0) 108000 = some r ∧
      r.period_start = 108000 ∧ r.period_end = 151200 ∧ r.is_night = false ∧
      r.base_day = 86400) ∧
    (∀ tt, midnight_of tt = 86400 → tt < 108000 → ∃ r,
      planetary_hour_face_update sun_equatorial (0, 0) tt = some r ∧
      r.period_start = 64800 ∧ r.period_end = 108000 ∧ r.is_night = true ∧
      r.base_day = u32sub 86400 86400) :=
  C4_half_open_period_boundaries sun_equatorial (0, 0) 86400 108000 151200
    21600 64800 194400 237600 (by decide) (by decide) (by decide) (by decide)

/-- Claim C5, evaluated at the failing input (code bug): in the 6-digit layout,
advancing the longitude hundreds digit from the in-range value +100.00 degrees
(hundreds = 1, all lower digits 0) leaves the out-of-range value +280.00
degrees, because the clamp at lines 371-378 sets the tens digit to 8 without
resetting the hundreds digit, contradicting the comment "prevent longitude
from going over +-180" directly above it. -/
theorem C5_longitude_hundreds_clamp_bug :
    latlon_from_struct ⟨false, 1, 0, 0, 0, 0⟩ = 10000 ∧
    (10000 : ℤ) ≤ 18000 ∧
    latlon_from_struct
        ((planetary_hour_face_advance_digit false
          ⟨2, 1, ⟨false, 0, 0, 0, 0, 0⟩, ⟨false, 1, 0, 0, 0, 0⟩,
            false⟩).working_longitude) = 28000 ∧
    (18000 : ℤ) < 28000 := by
  refine ⟨by decide, by decide, ?_, by decide⟩
  decide

/-- Claim C8: advancing the latitude tens digit from 8 to 9 in a state whose
lower digits would push the magnitude past 90.00 degrees zeroes the ones,
tenths and hundredths digits, leaving exactly 90.00 degrees, in the 6-digit
layout (active digit 2) and identically in the 5-digit layout (active digit 0). -/
theorem C8_latitude_tens_clamp (lat lon : lat_lon_settings_t) (c : Bool)
    (h0 : lat.hundreds = 0) (h8 : lat.tens = 8)
    (hlow : 0 < lat.ones * 100 + lat.tenths * 10 + lat.hundredths) :
    (planetary_hour_face_advance_digit false
        ⟨1, 2, lat, lon, c⟩).working_latitude = ⟨lat.sign, 0, 9, 0, 0, 0⟩ ∧
    (planetary_hour_face_advance_digit true
        ⟨1, 0, lat, lon, c⟩).working_latitude = ⟨lat.sign, 0, 9, 0, 0, 0⟩ ∧
    (latlon_from_struct ⟨lat.sign, 0, 9, 0, 0, 0⟩).natAbs = 9000 := by
  obtain ⟨s, hh, t, vo, vt, vh⟩ := lat
  simp only at h0 h8 hlow
  subst h0 h8
  refine ⟨?_, ?_, ?_⟩
  · simp only [planetary_hour_face_advance_digit]
    norm_num
    intro hle
    rw [latlon_from_struct_natAbs] at hle
    simp only at hle
    omega
  · simp only [planetary_hour_face_advance_digit]
    norm_num
    intro hle
    rw [latlon_from_struct_natAbs] at hle
    simp only at hle
    omega
  · rw [latlon_from_struct_natAbs]
    norm_num

/-- Witness for C8 with latitude +80.50 (tens 8, ones 5 pushing past 90 once
the tens digit becomes 9). -/
theorem C8_latitude_tens_clamp_witness :
    (planetary_hour_face_advance_digit false
        ⟨1, 2, ⟨false, 0, 8, 5, 0, 0⟩, ⟨false, 0, 0, 0, 0, 0⟩,
          false⟩).working_latitude = ⟨false, 0, 9, 0, 0, 0⟩ ∧
    (planetary_hour_face_advance_digit true
        ⟨1, 0, ⟨false, 0, 8, 5, 0, 0⟩, ⟨false, 0, 0, 0, 0, 0⟩,
          false⟩).working_latitude = ⟨false, 0, 9, 0, 0, 0⟩ ∧
    (latlon_from_struct ⟨false, 0, 9, 0, 0, 0⟩).natAbs = 9000 :=
  C8_latitude_tens_clamp ⟨false, 0, 8, 5, 0, 0⟩ ⟨false, 0, 0, 0, 0, 0⟩ false
    (by decide) (by decide) (by decide)

/-- Claim C9: the stored expiration is exactly the sub hour end plus 60
seconds; on a tick in display mode the planetary hour is recomputed exactly
when the local time has reached or passed that expiration; and the causal input
events (alarm button: hour offset increment; light button: preset cycle or hour
offset decrement) always trigger a recomputation in display mode. -/
theorem C9_expiry_and_recompute (e : ℕ) (he : e + 60 < U32)
    (st : planetary_hour_state_t) (now : ℕ) (b : Bool) (count : ℕ)
    (hp : st.location_state.page = 0) :
    planetary_hour_set_expiration e = e + 60 ∧
    (planetary_hour_tick_recomputes st now = true ↔
      st.hour_offset_expires ≤ now) ∧
    (planetary_hour_alarm_button_up b st).2 = true ∧
    (planetary_hour_alarm_button_up b st).1.hour_offset = st.hour_offset + 1 ∧
    (planetary_hour_light_button_up b st count).2 = true := by
  refine ⟨?_, ?_, ?_, ?_, ?_⟩
  · unfold planetary_hour_set_expiration u32add
    exact Nat.mod_eq_of_lt he
  · unfold planetary_hour_tick_recomputes
    rw [if_pos hp]
    simp
  · unfold planetary_hour_alarm_button_up
    rw [if_neg (by omega)]
  · unfold planetary_hour_alarm_button_up
    rw [if_neg (by omega)]
  · unfold planetary_hour_light_button_up
    by_cases hc : 1 < count
    · rw [if_pos ⟨hp, hc⟩]
    · rw [if_neg (fun h => hc h.2)]
      simp [hp]

/-- Witness for C9 at a concrete display-mode state. -/
theorem C9_expiry_and_recompute_witness :
    planetary_hour_set_expiration 1000 = 1000 + 60 ∧
    (planetary_hour_tick_recomputes
        ⟨⟨0, 0, ⟨false, 0, 0, 0, 0, 0⟩, ⟨false, 0, 0, 0, 0, 0⟩, false⟩, 0,
          1060, 0⟩ 1060 = true ↔ (1060 : ℕ) ≤ 1060) ∧
    (planetary_hour_alarm_button_up false
        ⟨⟨0, 0, ⟨false, 0, 0, 0, 0, 0⟩, ⟨false, 0, 0, 0, 0, 0⟩, false⟩, 0,
          1060, 0⟩).2 = true ∧
    (planetary_hour_alarm_button_up false
        ⟨⟨0, 0, ⟨false, 0, 0, 0, 0, 0⟩, ⟨false, 0, 0, 0, 0, 0⟩, false⟩, 0,
          1060, 0⟩).1.hour_offset = 0 + 1 ∧
    (planetary_hour_light_button_up false
        ⟨⟨0, 0, ⟨false, 0, 0, 0, 0, 0⟩, ⟨false, 0, 0, 0, 0, 0⟩, false⟩, 0,
          1060, 0⟩ 1).2 = true :=
  C9_expiry_and_recompute 1000 (by decide)
    ⟨⟨0, 0, ⟨false, 0, 0, 0, 0, 0⟩, ⟨false, 0, 0, 0, 0, 0⟩, false⟩, 0, 1060, 0⟩
    1060 false 1 (by decide)

/-- Claim C10: for a midnight timestamp at least one day past the epoch (and
with one day of headroom below 2^32), `_add_days` with -1 gives exactly the
instant 86400 seconds earlier - the unsigned multiplication by `(uint32_t)(-1)`
wraps to 2^32 - 86400 and the wrapping addition coincides with exact
subtraction - and with +1 exactly the instant 86400 seconds later. -/
theorem C10_add_days_one_day (t : ℕ) (h1 : 86400 ≤ t) (h2 : t + 86400 < U32) :
    add_days t (-1) = t - 86400 ∧ add_days t 1 = t + 86400 := by
  unfold add_days u32add U32 at *
  constructor
  · norm_num
    omega
  · norm_num
    omega

/-- Witness for C10 at the midnight timestamp 172800 (two days past epoch). -/
theorem C10_add_days_one_day_witness :
    add_days 172800 (-1) = 172800 - 86400 ∧
    add_days 172800 1 = 172800 + 86400 :=
  C10_add_days_one_day 172800 (by norm_num) (by norm_num [U32])
